import Mathlib

/-!
Shallow embedding of the parceltrack shipment-tracking core:
`src/backend/src/services/trackingService.ts` (classes `TrackingService` and
`LeadService`) over the data model of `src/backend/prisma/schema.prisma`.

Modelling conventions:
* `DateTime` values are modelled as `Int` timestamps; the implicit clock
  (`new Date()`) is passed explicitly as a `now : Int` argument.
* The database is a record of lists of rows plus an id counter (Prisma's
  generated `uuid()` ids become consecutive `Nat`s).
* Prisma's `$transaction` is all-or-nothing: an operation returns
  `Except TrackErr (Db × row)`; an `error` result carries no new state
  (rollback), a committed state is extracted with the `*Commit` runners.
* `Shipment.trackingNumber` is a required unique column in `schema.prisma`
  (`String @unique`, no default).  It is nevertheless modelled as
  `Option String`, because `LeadService.convertToShipment` builds its
  `shipment.create` call from `{...shipmentData, userId}` only and supplies
  no value for `trackingNumber`; the `Option` makes that omission visible
  in the model (`none`) instead of hiding it.
* The conversion's `$transaction` is therefore modelled twice.
  `convertPhase2`/`convertToShipment` is the *structural* view: the row
  exactly as the `data` object describes it, committing — this exhibits the
  missing column itself and the check-before-transaction shape of the
  function.  `convertTransactionRun`/`convertToShipmentRun` is the
  *runtime* view: the ORM rejects a `create` whose data lacks the required
  no-default `trackingNumber` column, so the transaction always aborts and
  rolls back before the lead update — this is what the program does when
  executed.
-/

namespace ParcelTrack

/-- `enum TrackingStatus` of `schema.prisma`. -/
inductive TrackingStatus where
  | PENDING
  | PICKED_UP
  | IN_TRANSIT
  | OUT_FOR_DELIVERY
  | DELIVERED
  | EXCEPTION
  | RETURNED
deriving DecidableEq, Repr

/-- `enum LeadStatus` of `schema.prisma`. -/
inductive LeadStatus where
  | new
  | contacted
  | qualified
  | converted
  | rejected
deriving DecidableEq, Repr

/-- A row of `model Shipment`.  `trackingNumber` is a required unique column
in the schema; see the file comment for why it is an `Option` here. -/
structure ShipmentRow where
  id : Nat
  trackingNumber : Option String
  carrier : Option String
  carrierTrackingNumber : Option String
  status : TrackingStatus
  estimatedDelivery : Option Int
  actualDelivery : Option Int
  createdAt : Int
  userId : Option String
deriving DecidableEq, Repr

/-- A row of `model TrackingEvent` (its generated `id`/`createdAt` are not
needed by any claim; insertion order is the list order in `Db.events`). -/
structure EventRow where
  shipmentId : Nat
  status : TrackingStatus
  description : String
  location : Option String
  timestamp : Int
deriving DecidableEq, Repr

/-- The fields of `model Lead` that the tracking core reads. -/
structure LeadRow where
  id : Nat
  status : LeadStatus
  clientId : Option String
deriving DecidableEq, Repr

/-- The persistent store. -/
structure Db where
  shipments : List ShipmentRow
  events : List EventRow
  leads : List LeadRow
  nextId : Nat
deriving DecidableEq, Repr

/-- The failures thrown by the tracking core (§7 of the spec):
`notFound` is the Prisma record-not-found on `shipment.update`,
`allocationExhausted` is `'Failed to generate unique tracking number after
multiple attempts'`, `leadNotFound` is `'Lead not found'`,
`alreadyConverted` (the spec's InvalidTransition) is
`'Lead already converted'`, and `missingTrackingNumber` is the Prisma
client's rejection of a `create` whose `data` lacks the required
no-default `trackingNumber` column. -/
inductive TrackErr where
  | notFound
  | allocationExhausted
  | leadNotFound
  | alreadyConverted
  | missingTrackingNumber
deriving DecidableEq, Repr

/-- `customAlphabet('0123456789ABCDEFGHJKLMNPQRSTUVWXYZ', 12)`: the alphabet. -/
def trackingAlphabet : List Char :=
  "0123456789ABCDEFGHJKLMNPQRSTUVWXYZ".toList

/-- The nanoid generator produced by `customAlphabet(alphabet, 12)`:
twelve characters, each drawn from the alphabet by a random index.
The randomness source is the explicit argument `rand` (position ↦ draw). -/
def generateTrackingNumber (rand : Nat → Nat) : String :=
  ⟨(List.range 12).map fun i => trackingAlphabet.getD (rand i % trackingAlphabet.length) 'A'⟩

/-- `prisma.shipment.findUnique({ where: { trackingNumber } })`. -/
def findShipmentByTn (db : Db) (tn : String) : Option ShipmentRow :=
  db.shipments.find? fun s => s.trackingNumber == some tn

/-- The allocator's collision check: `findUnique(...).then(Boolean)`. -/
def existsTrackingNumber (db : Db) (tn : String) : Bool :=
  (findShipmentByTn db tn).isSome

/-- The `do ... while (exists)` loop body of
`TrackingService.generateUniqueTrackingNumber`, with `fuel`
standing for `MAX_ATTEMPTS - attempts` (the loop throws as soon as
`attempts >= MAX_ATTEMPTS`, i.e. when the fuel runs out).  `rands k` is the
randomness consumed by the `k`-th call of `generateTrackingNumber()`. -/
def genUniqueAux (db : Db) (rands : Nat → Nat → Nat) : Nat → Nat → Except TrackErr String
  | 0, _ => .error .allocationExhausted
  | fuel + 1, attempts =>
    let tn := generateTrackingNumber (rands attempts)
    if existsTrackingNumber db tn then genUniqueAux db rands fuel (attempts + 1)
    else .ok tn

/-- `MAX_ATTEMPTS = 10`. -/
def MAX_ATTEMPTS : Nat := 10

/-- `TrackingService.generateUniqueTrackingNumber`. -/
def generateUniqueTrackingNumber (db : Db) (rands : Nat → Nat → Nat) : Except TrackErr String :=
  genUniqueAux db rands MAX_ATTEMPTS 0

/-- The `data` argument of `TrackingService.createShipment`. -/
structure CreateData where
  userId : Option String
  carrier : Option String
  carrierTrackingNumber : Option String
  estimatedDelivery : Option Int
deriving DecidableEq, Repr

/-- `TrackingService.createShipment`: allocate a tracking number, then
insert the row (status defaults to `PENDING`, `actualDelivery` to null,
per the schema defaults). -/
def createShipment (db : Db) (data : CreateData) (rands : Nat → Nat → Nat) (now : Int) :
    Except TrackErr (Db × ShipmentRow) :=
  match generateUniqueTrackingNumber db rands with
  | .error e => .error e
  | .ok tn =>
    let s : ShipmentRow :=
      { id := db.nextId
        trackingNumber := some tn
        carrier := data.carrier
        carrierTrackingNumber := data.carrierTrackingNumber
        status := .PENDING
        estimatedDelivery := data.estimatedDelivery
        actualDelivery := none
        createdAt := now
        userId := data.userId }
    .ok ({ db with shipments := db.shipments ++ [s], nextId := db.nextId + 1 }, s)

/-- Sorted insertion, descending on `key`; used to model Prisma's
`orderBy: { ... : 'desc' }`. -/
def insertDescBy {α : Type} (key : α → Int) (a : α) : List α → List α
  | [] => [a]
  | x :: xs => if key a ≤ key x then x :: insertDescBy key a xs else a :: x :: xs

/-- Insertion sort, descending on `key`. -/
def sortDescBy {α : Type} (key : α → Int) : List α → List α
  | [] => []
  | x :: xs => insertDescBy key x (sortDescBy key xs)

/-- `TrackingService.getShipment`: the shipment found by tracking number
together with its events ordered by `timestamp: 'desc'`. -/
def getShipment (db : Db) (tn : String) : Option (ShipmentRow × List EventRow) :=
  (findShipmentByTn db tn).map fun s =>
    (s, sortDescBy (fun e => e.timestamp) (db.events.filter fun e => e.shipmentId == s.id))

/-- The `data` argument of `TrackingService.updateShipmentStatus`. -/
structure UpdateData where
  description : String
  location : Option String
  timestamp : Option Int
deriving DecidableEq, Repr

/-- `TrackingService.updateShipmentStatus`.  Mirrors the source:
`timestamp = data.timestamp || new Date()` (a `Date` is always truthy, so
this is a default); inside one `$transaction`, `shipment.update` by unique
`trackingNumber` (throwing record-not-found when absent), setting
`actualDelivery` exactly when the new status is `DELIVERED`, then
`trackingEvent.create` with the updated shipment's id. -/
def updateShipmentStatus (db : Db) (tn : String) (st : TrackingStatus)
    (data : UpdateData) (now : Int) : Except TrackErr (Db × ShipmentRow) :=
  let timestamp := data.timestamp.getD now
  match findShipmentByTn db tn with
  | none => .error .notFound
  | some s =>
    let s1 : ShipmentRow :=
      { s with
        status := st
        actualDelivery := if st = .DELIVERED then some timestamp else s.actualDelivery }
    let ev : EventRow :=
      { shipmentId := s.id
        status := st
        description := data.description
        location := data.location
        timestamp := timestamp }
    let db1 : Db :=
      { db with
        shipments := db.shipments.map fun r =>
          if r.trackingNumber == some tn then
            { r with
              status := st
              actualDelivery := if st = .DELIVERED then some timestamp else r.actualDelivery }
          else r
        events := db.events ++ [ev] }
    .ok (db1, s1)

/-- The state the caller observes after `updateShipmentStatus`: the committed
state on success, the unchanged state on a rolled-back failure. -/
def updateCommit (db : Db) (tn : String) (st : TrackingStatus)
    (data : UpdateData) (now : Int) : Db :=
  match updateShipmentStatus db tn st data now with
  | .ok (db1, _) => db1
  | .error _ => db

/-- The `where` object of `TrackingService.listShipments`:
`{...(userId && { userId }), ...(status && { status })}` — a JS truthiness
spread, so an absent *or empty-string* `userId` contributes no filter
(`""` is falsy), and an absent `status` contributes no filter. -/
def whereMatch (userId : Option String) (status : Option TrackingStatus)
    (s : ShipmentRow) : Bool :=
  (match userId with
   | none => true
   | some u => if u = "" then true else s.userId == some u) &&
  (match status with
   | none => true
   | some st => s.status == st)

/-- `Math.ceil(total / limit)` on naturals (for `limit > 0`). -/
def mathCeilDiv (total limit : Nat) : Nat := (total + limit - 1) / limit

structure Pagination where
  total : Nat
  page : Nat
  limit : Nat
  totalPages : Nat
deriving DecidableEq, Repr

structure ListResult where
  shipments : List ShipmentRow
  pagination : Pagination
deriving DecidableEq, Repr

/-- `TrackingService.listShipments`: filter, order by `createdAt: 'desc'`,
`skip (page-1)*limit`, `take limit`, with `page = 1` and `limit = 20`
defaults, `total` from the matching count and
`totalPages = Math.ceil(total/limit)`.  (The per-row inclusion of the single
newest event, used only for list-view display, is not modelled: no claim
mentions it.) -/
def listShipments (db : Db) (userId : Option String) (status : Option TrackingStatus)
    (page : Option Nat) (limit : Option Nat) : ListResult :=
  let pageV := page.getD 1
  let limitV := limit.getD 20
  let filtered := db.shipments.filter (whereMatch userId status)
  let sorted := sortDescBy (fun s => s.createdAt) filtered
  { shipments := (sorted.drop ((pageV - 1) * limitV)).take limitV
    pagination :=
      { total := filtered.length
        page := pageV
        limit := limitV
        totalPages := mathCeilDiv filtered.length limitV } }

/-- The `data` argument of `LeadService.convertToShipment`. -/
structure ShipmentData where
  carrier : Option String
  carrierTrackingNumber : Option String
  estimatedDelivery : Option Int
deriving DecidableEq, Repr

/-- `prisma.lead.findUnique({ where: { id: leadId } })`. -/
def findLeadById (db : Db) (leadId : Nat) : Option LeadRow :=
  db.leads.find? fun l => l.id == leadId

/-- The part of `LeadService.convertToShipment` that runs *before*
`prisma.$transaction`: load the lead, fail `'Lead not found'` when absent,
fail `'Lead already converted'` when its status is `converted`. -/
def convertPhase1 (db : Db) (leadId : Nat) : Except TrackErr LeadRow :=
  match findLeadById db leadId with
  | none => .error .leadNotFound
  | some lead =>
    if lead.status = .converted then .error .alreadyConverted else .ok lead

/-- The `prisma.$transaction` body of `LeadService.convertToShipment`:
`tx.shipment.create({ data: { ...shipmentData, userId: lead.clientId?.toString() } })`
— note: no `trackingNumber` is supplied (and the schema has no default for
it) — followed by `tx.lead.update(..., { status: 'converted' })`.
The created row takes the schema defaults `status = PENDING`,
`actualDelivery = null`. -/
def convertPhase2 (db : Db) (leadId : Nat) (lead : LeadRow) (sd : ShipmentData)
    (now : Int) : Db × ShipmentRow :=
  let s : ShipmentRow :=
    { id := db.nextId
      trackingNumber := none
      carrier := sd.carrier
      carrierTrackingNumber := sd.carrierTrackingNumber
      status := .PENDING
      estimatedDelivery := sd.estimatedDelivery
      actualDelivery := none
      createdAt := now
      userId := lead.clientId }
  ({ db with
      shipments := db.shipments ++ [s]
      nextId := db.nextId + 1
      leads := db.leads.map fun l =>
        if l.id == leadId then { l with status := .converted } else l },
   s)

/-- `LeadService.convertToShipment`: the pre-transaction check
(`convertPhase1`) followed, on success, by the transaction
(`convertPhase2`). -/
def convertToShipment (db : Db) (leadId : Nat) (sd : ShipmentData) (now : Int) :
    Except TrackErr (Db × ShipmentRow) :=
  match convertPhase1 db leadId with
  | .error e => .error e
  | .ok lead => .ok (convertPhase2 db leadId lead sd now)

/-- The state the caller observes after `convertToShipment`: committed on
success, unchanged on a failure. -/
def convertCommit (db : Db) (leadId : Nat) (sd : ShipmentData) (now : Int) : Db :=
  match convertToShipment db leadId sd now with
  | .ok (db1, _) => db1
  | .error _ => db

/-- `tx.shipment.create` as the ORM executes it: `Shipment.trackingNumber`
is a required unique column with no default in `schema.prisma`, so a
`data` object carrying no `trackingNumber` is rejected by the Prisma
client; otherwise the row is inserted with the schema defaults.  The
`trackingNumber` argument is exactly what the caller's `data` object
carries. -/
def prismaShipmentCreate (db : Db) (trackingNumber : Option String)
    (carrier carrierTrackingNumber : Option String) (estimatedDelivery : Option Int)
    (userId : Option String) (now : Int) : Except TrackErr (Db × ShipmentRow) :=
  match trackingNumber with
  | none => .error .missingTrackingNumber
  | some tn =>
    let s : ShipmentRow :=
      { id := db.nextId
        trackingNumber := some tn
        carrier := carrier
        carrierTrackingNumber := carrierTrackingNumber
        status := .PENDING
        estimatedDelivery := estimatedDelivery
        actualDelivery := none
        createdAt := now
        userId := userId }
    .ok ({ db with shipments := db.shipments ++ [s], nextId := db.nextId + 1 }, s)

/-- The `prisma.$transaction` body of `LeadService.convertToShipment` as
executed at runtime: the `shipment.create` — whose `data` is
`{...shipmentData, userId: lead.clientId?.toString()}`, i.e. no
`trackingNumber` — runs first; when the ORM rejects it, the transaction
aborts before the `lead.update` and nothing is committed. -/
def convertTransactionRun (db : Db) (leadId : Nat) (lead : LeadRow) (sd : ShipmentData)
    (now : Int) : Except TrackErr (Db × ShipmentRow) :=
  match prismaShipmentCreate db none sd.carrier sd.carrierTrackingNumber
      sd.estimatedDelivery lead.clientId now with
  | .error e => .error e
  | .ok (db1, s) =>
    .ok ({ db1 with leads := db1.leads.map fun l =>
            if l.id == leadId then { l with status := .converted } else l }, s)

/-- `LeadService.convertToShipment` as executed at runtime: the
pre-transaction check (`convertPhase1`), then the transaction
(`convertTransactionRun`). -/
def convertToShipmentRun (db : Db) (leadId : Nat) (sd : ShipmentData) (now : Int) :
    Except TrackErr (Db × ShipmentRow) :=
  match convertPhase1 db leadId with
  | .error e => .error e
  | .ok lead => convertTransactionRun db leadId lead sd now

/-- The state the caller observes after the runtime `convertToShipment`:
committed on success, unchanged (rolled back) on a failure. -/
def convertCommitRun (db : Db) (leadId : Nat) (sd : ShipmentData) (now : Int) : Db :=
  match convertToShipmentRun db leadId sd now with
  | .ok (db1, _) => db1
  | .error _ => db

/-- `Except.isOk` spelled out, to state that a call succeeded. -/
def exceptIsOk {ε α : Type} : Except ε α → Bool
  | .ok _ => true
  | .error _ => false

/-- The `trackingNumber` contract of the spec (§3/§6): present, unique-format
code of length 12 over the tracking alphabet.  (Uniqueness is a cross-row
property; this is the per-row part.) -/
def hasValidTrackingNumber (s : ShipmentRow) : Bool :=
  match s.trackingNumber with
  | none => false
  | some tn => tn.length == 12 && tn.toList.all fun c => trackingAlphabet.contains c

/-- `actualDelivery` of the shipment with the given tracking number. -/
def actualDeliveryOf (db : Db) (tn : String) : Option Int :=
  (findShipmentByTn db tn).bind fun s => s.actualDelivery

/-- One call of `updateShipmentStatus` in a trace. -/
structure UpdateCall where
  status : TrackingStatus
  data : UpdateData
  now : Int
deriving DecidableEq, Repr

/-- Run a sequence of `updateShipmentStatus` calls on one tracking number,
keeping the committed state of each call. -/
def applyUpdates (db : Db) (tn : String) : List UpdateCall → Db
  | [] => db
  | c :: cs => applyUpdates (updateCommit db tn c.status c.data c.now) tn cs

/-! ### Concrete fixtures -/

/-- An empty store. -/
def emptyDb : Db := { shipments := [], events := [], leads := [], nextId := 0 }

/-- Degenerate randomness: every draw is 0 (every candidate is
`"000000000000"`). -/
def rands0 : Nat → Nat → Nat := fun _ _ => 0

def data0 : CreateData :=
  { userId := none, carrier := none, carrierTrackingNumber := none, estimatedDelivery := none }

def sd0 : ShipmentData :=
  { carrier := none, carrierTrackingNumber := none, estimatedDelivery := none }

/-- The shipment `createShipment emptyDb data0 rands0 0` creates. -/
def shipC7 : ShipmentRow :=
  { id := 0, trackingNumber := some "000000000000", carrier := none,
    carrierTrackingNumber := none, status := .PENDING, estimatedDelivery := none,
    actualDelivery := none, createdAt := 0, userId := none }

def dbC7 : Db := { shipments := [shipC7], events := [], leads := [], nextId := 1 }

/-- A store already holding the only candidate `rands0` can produce, so the
allocator collides on every attempt. -/
def dbCollide : Db := { shipments := [shipC7], events := [], leads := [], nextId := 1 }

/-- A store with one unconverted lead. -/
def leadDb : Db :=
  { shipments := [], events := [],
    leads := [{ id := 1, status := .new, clientId := some "u1" }], nextId := 0 }

/-- A store whose only lead is already converted. -/
def convDb : Db :=
  { shipments := [], events := [],
    leads := [{ id := 1, status := .converted, clientId := some "u1" }], nextId := 0 }

def sdC1 : ShipmentData :=
  { carrier := some "DHL", carrierTrackingNumber := some "CT-1",
    estimatedDelivery := some 1700000000 }

def raceLead : LeadRow := { id := 7, status := .new, clientId := some "u9" }

def raceDb : Db := { shipments := [], events := [], leads := [raceLead], nextId := 0 }

/-- A store with one shipment (tracking number `"TN1"`) that already has one
event at timestamp 10. -/
def shipC3 : ShipmentRow :=
  { id := 0, trackingNumber := some "TN1", carrier := none, carrierTrackingNumber := none,
    status := .PENDING, estimatedDelivery := none, actualDelivery := none,
    createdAt := 0, userId := none }

def dbC3 : Db :=
  { shipments := [shipC3],
    events := [{ shipmentId := 0, status := .PENDING, description := "Created",
                 location := none, timestamp := 10 }],
    leads := [], nextId := 1 }

def updC3 : UpdateData := { description := "In transit", location := none, timestamp := some 5 }

/-- The state after `updateShipmentStatus dbC3 "TN1" IN_TRANSIT ⟨"x", none, some 99⟩ 50`. -/
def shipC3b : ShipmentRow := { shipC3 with status := .IN_TRANSIT }

def dbC3b : Db :=
  { shipments := [shipC3b],
    events := [{ shipmentId := 0, status := .PENDING, description := "Created",
                 location := none, timestamp := 10 },
               { shipmentId := 0, status := .IN_TRANSIT, description := "x",
                 location := none, timestamp := 99 }],
    leads := [], nextId := 1 }

def updC4 : UpdateData := { description := "d", location := none, timestamp := none }

/-- The state after `updateShipmentStatus dbC3 "TN1" PICKED_UP updC4 7`. -/
def shipC4b : ShipmentRow := { shipC3 with status := .PICKED_UP }

def dbC4b : Db :=
  { shipments := [shipC4b],
    events := [{ shipmentId := 0, status := .PENDING, description := "Created",
                 location := none, timestamp := 10 },
               { shipmentId := 0, status := .PICKED_UP, description := "d",
                 location := none, timestamp := 7 }],
    leads := [], nextId := 1 }

def updC5 : UpdateData :=
  { description := "Delivered", location := some "Springfield", timestamp := some 77 }

/-- Twelve `IN_TRANSIT` shipments, for the pagination scenario. -/
def mkShipIT (i : Nat) : ShipmentRow :=
  { id := i, trackingNumber := some "T", carrier := none, carrierTrackingNumber := none,
    status := .IN_TRANSIT, estimatedDelivery := none, actualDelivery := none,
    createdAt := 0, userId := none }

def db12 : Db :=
  { shipments := (List.range 12).map mkShipIT, events := [], leads := [], nextId := 12 }

/-! ### Helper lemmas -/

/-- `find?` over a pointwise conditional update: when the update function `g`
preserves the predicate `p`, updating every matching element commutes with
`find?`. -/
theorem find_map_cond {α : Type} (p : α → Bool) (g : α → α)
    (hg : ∀ a, p (g a) = p a) :
    ∀ l : List α,
      (l.map fun a => if p a then g a else a).find? p = (l.find? p).map g := by
  intro l
  induction l with
  | nil => rfl
  | cons a t ih =>
    cases hpa : p a with
    | true => simp [List.find?, hpa, hg]
    | false => simp [List.find?, hpa, ih]

theorem mem_insertDescBy {α : Type} (key : α → Int) (a b : α) (l : List α) :
    b ∈ insertDescBy key a l ↔ b = a ∨ b ∈ l := by
  induction l with
  | nil => simp [insertDescBy]
  | cons x xs ih =>
    by_cases h : key a ≤ key x
    · simp only [insertDescBy, if_pos h, List.mem_cons, ih]
      tauto
    · simp only [insertDescBy, if_neg h, List.mem_cons]

theorem mem_sortDescBy {α : Type} (key : α → Int) (b : α) (l : List α) :
    b ∈ sortDescBy key l ↔ b ∈ l := by
  induction l with
  | nil => simp [sortDescBy]
  | cons x xs ih => simp [sortDescBy, mem_insertDescBy, ih]

theorem length_insertDescBy {α : Type} (key : α → Int) (a : α) (l : List α) :
    (insertDescBy key a l).length = l.length + 1 := by
  induction l with
  | nil => rfl
  | cons x xs ih =>
    by_cases h : key a ≤ key x
    · simp [insertDescBy, if_pos h, ih]
    · simp [insertDescBy, if_neg h]

theorem length_sortDescBy {α : Type} (key : α → Int) (l : List α) :
    (sortDescBy key l).length = l.length := by
  induction l with
  | nil => rfl
  | cons x xs ih => simp [sortDescBy, length_insertDescBy, ih]

theorem pairwise_insertDescBy {α : Type} (key : α → Int) (a : α) (l : List α)
    (h : l.Pairwise fun x y => key y ≤ key x) :
    (insertDescBy key a l).Pairwise fun x y => key y ≤ key x := by
  induction l with
  | nil => simp [insertDescBy]
  | cons x xs ih =>
    rcases List.pairwise_cons.mp h with ⟨hx, hxs⟩
    by_cases hle : key a ≤ key x
    · rw [insertDescBy, if_pos hle]
      refine List.pairwise_cons.mpr ⟨?_, ih hxs⟩
      intro b hb
      rcases (mem_insertDescBy key a b xs).mp hb with rfl | hbxs
      · exact hle
      · exact hx b hbxs
    · rw [insertDescBy, if_neg hle]
      refine List.pairwise_cons.mpr ⟨?_, h⟩
      intro b hb
      rcases List.mem_cons.mp hb with rfl | hbxs
      · exact le_of_lt (lt_of_not_le hle)
      · exact le_trans (hx b hbxs) (le_of_lt (lt_of_not_le hle))

theorem pairwise_sortDescBy {α : Type} (key : α → Int) (l : List α) :
    (sortDescBy key l).Pairwise fun x y => key y ≤ key x := by
  induction l with
  | nil => simp [sortDescBy]
  | cons x xs ih => exact pairwise_insertDescBy key x _ ih

/-- Inserting a strictly larger element puts it at the front. -/
theorem insertDescBy_gt {α : Type} (key : α → Int) (a : α) (l : List α)
    (h : ∀ x ∈ l, key x < key a) : insertDescBy key a l = a :: l := by
  cases l with
  | nil => rfl
  | cons x xs =>
    have : ¬ key a ≤ key x := not_le_of_lt (h x (List.mem_cons_self x xs))
    rw [insertDescBy, if_neg this]

/-- Sorting a list with a strictly-larger element appended puts that element
first. -/
theorem sortDescBy_append_gt {α : Type} (key : α → Int) (a : α) :
    ∀ l : List α, (∀ x ∈ l, key x < key a) →
      sortDescBy key (l ++ [a]) = a :: sortDescBy key l := by
  intro l
  induction l with
  | nil => intro _; rfl
  | cons x xs ih =>
    intro h
    have hx : key x < key a := h x (List.mem_cons_self x xs)
    calc sortDescBy key ((x :: xs) ++ [a])
        = insertDescBy key x (sortDescBy key (xs ++ [a])) := rfl
      _ = insertDescBy key x (a :: sortDescBy key xs) := by
          rw [ih fun y hy => h y (List.mem_cons_of_mem x hy)]
      _ = a :: insertDescBy key x (sortDescBy key xs) := by
          rw [insertDescBy, if_pos (le_of_lt hx)]
      _ = a :: sortDescBy key (x :: xs) := rfl

theorem getD_mem_of_lt {α : Type} (d : α) :
    ∀ (l : List α) (n : Nat), n < l.length → l.getD n d ∈ l := by
  intro l
  induction l with
  | nil => intro n h; simp at h
  | cons a t ih =>
    intro n h
    cases n with
    | zero => simp
    | succ m =>
      have hm : m < t.length := by simpa using h
      exact List.mem_cons_of_mem a (ih m hm)

theorem generateTrackingNumber_length (rand : Nat → Nat) :
    (generateTrackingNumber rand).length = 12 := by
  simp [generateTrackingNumber, String.length]

theorem generateTrackingNumber_mem_alphabet (rand : Nat → Nat) :
    ∀ c ∈ (generateTrackingNumber rand).toList, c ∈ trackingAlphabet := by
  intro c hc
  have hc' : c ∈ (List.range 12).map
      (fun i => trackingAlphabet.getD (rand i % trackingAlphabet.length) 'A') := hc
  rcases List.mem_map.mp hc' with ⟨i, _, rfl⟩
  apply getD_mem_of_lt
  exact Nat.mod_lt _ (by decide)

/-- If every candidate the loop can still try collides, the loop exhausts its
fuel and fails. -/
theorem genAux_all_collide (db : Db) (rands : Nat → Nat → Nat) :
    ∀ (fuel a : Nat),
      (∀ i, a ≤ i → i < a + fuel →
        existsTrackingNumber db (generateTrackingNumber (rands i)) = true) →
      genUniqueAux db rands fuel a = .error .allocationExhausted := by
  intro fuel
  induction fuel with
  | zero => intro a _; rfl
  | succ fuel ih =>
    intro a h
    have ha : existsTrackingNumber db (generateTrackingNumber (rands a)) = true :=
      h a (Nat.le_refl a) (by omega)
    simp only [genUniqueAux, ha, if_true]
    exact ih (a + 1) fun i h1 h2 => h i (by omega) (by omega)

/-- The loop returns the first free candidate it reaches. -/
theorem genAux_first_free (db : Db) (rands : Nat → Nat → Nat) :
    ∀ (fuel a i : Nat), a ≤ i → i < a + fuel →
      existsTrackingNumber db (generateTrackingNumber (rands i)) = false →
      (∀ j, a ≤ j → j < i →
        existsTrackingNumber db (generateTrackingNumber (rands j)) = true) →
      genUniqueAux db rands fuel a = .ok (generateTrackingNumber (rands i)) := by
  intro fuel
  induction fuel with
  | zero => intro a i h1 h2 _ _; omega
  | succ fuel ih =>
    intro a i h1 h2 hfree hcoll
    by_cases hai : i = a
    · subst hai
      simp only [genUniqueAux, hfree]
      rfl
    · have ha : existsTrackingNumber db (generateTrackingNumber (rands a)) = true :=
        hcoll a (Nat.le_refl a) (by omega)
      simp only [genUniqueAux, ha, if_true]
      exact ih (a + 1) i (by omega) (by omega) hfree fun j hj1 hj2 => hcoll j (by omega) hj2

/-- Any string the loop returns is one of the generated candidates. -/
theorem genAux_ok_candidate (db : Db) (rands : Nat → Nat → Nat) :
    ∀ (fuel a : Nat) (tn : String), genUniqueAux db rands fuel a = .ok tn →
      ∃ i, tn = generateTrackingNumber (rands i) := by
  intro fuel
  induction fuel with
  | zero => intro a tn h; simp [genUniqueAux] at h
  | succ fuel ih =>
    intro a tn h
    by_cases hc : existsTrackingNumber db (generateTrackingNumber (rands a)) = true
    · simp only [genUniqueAux, hc, if_true] at h
      exact ih (a + 1) tn h
    · simp only [genUniqueAux, Bool.not_eq_true] at hc
      simp only [genUniqueAux, hc, Bool.false_eq_true, if_false, Except.ok.injEq] at h
      exact ⟨a, h.symm⟩

/-- The loop's result depends only on the candidates it can actually
generate. -/
theorem genAux_congr (db : Db) (rands1 rands2 : Nat → Nat → Nat) :
    ∀ (fuel a : Nat),
      (∀ i, a ≤ i → i < a + fuel →
        generateTrackingNumber (rands1 i) = generateTrackingNumber (rands2 i)) →
      genUniqueAux db rands1 fuel a = genUniqueAux db rands2 fuel a := by
  intro fuel
  induction fuel with
  | zero => intro a _; rfl
  | succ fuel ih =>
    intro a h
    have ha : generateTrackingNumber (rands1 a) = generateTrackingNumber (rands2 a) :=
      h a (Nat.le_refl a) (by omega)
    simp only [genUniqueAux, ha]
    by_cases hc : existsTrackingNumber db (generateTrackingNumber (rands2 a)) = true
    · simp only [hc, if_true]
      exact ih (a + 1) fun i h1 h2 => h i (by omega) (by omega)
    · simp only [Bool.not_eq_true] at hc
      simp [hc]

/-- The shipment-row rewrite performed by `updateShipmentStatus` commutes
with lookup by tracking number. -/
theorem find_shipments_update (l : List ShipmentRow) (tn : String) (st : TrackingStatus)
    (ts : Int) (s : ShipmentRow)
    (hf : (l.find? fun r => r.trackingNumber == some tn) = some s) :
    ((l.map fun r =>
        if r.trackingNumber == some tn then
          { r with
            status := st
            actualDelivery := if st = .DELIVERED then some ts else r.actualDelivery }
        else r).find? fun r => r.trackingNumber == some tn)
      = some { s with
               status := st
               actualDelivery := if st = .DELIVERED then some ts else s.actualDelivery } := by
  have h := find_map_cond (fun r : ShipmentRow => r.trackingNumber == some tn)
    (fun r => { r with
                status := st
                actualDelivery := if st = .DELIVERED then some ts else r.actualDelivery })
    (fun a => rfl) l
  rw [h, hf]
  rfl

/-- The lead-row rewrite performed by `convertToShipment`'s transaction
commutes with lookup by id. -/
theorem find_leads_converted (l : List LeadRow) (leadId : Nat) (lead : LeadRow)
    (hf : (l.find? fun x => x.id == leadId) = some lead) :
    ((l.map fun x => if x.id == leadId then { x with status := .converted } else x).find?
        fun x => x.id == leadId) = some { lead with status := LeadStatus.converted } := by
  have h := find_map_cond (fun x : LeadRow => x.id == leadId)
    (fun x => { x with status := .converted }) (fun a => rfl) l
  rw [h, hf]
  rfl

/-- A shipment survives `updateCommit` with its fields rewritten as the
update writes them. -/
theorem findShipmentByTn_updateCommit (db : Db) (tn : String) (st : TrackingStatus)
    (d : UpdateData) (now : Int) (s : ShipmentRow)
    (hf : findShipmentByTn db tn = some s) :
    findShipmentByTn (updateCommit db tn st d now) tn
      = some { s with
               status := st
               actualDelivery :=
                 if st = .DELIVERED then some (d.timestamp.getD now) else s.actualDelivery } := by
  simp only [updateCommit, updateShipmentStatus, hf]
  exact find_shipments_update db.shipments tn st (d.timestamp.getD now) s hf

/-- Once `actualDelivery` is set it stays set along any update trace. -/
theorem actualDelivery_persists (tn : String) :
    ∀ (cs : List UpdateCall) (db : Db) (s : ShipmentRow) (t : Int),
      findShipmentByTn db tn = some s → s.actualDelivery = some t →
      actualDeliveryOf (applyUpdates db tn cs) tn ≠ none := by
  intro cs
  induction cs with
  | nil =>
    intro db s t hf hs
    simp [applyUpdates, actualDeliveryOf, hf, hs]
  | cons c cs ih =>
    intro db s t hf hs
    have h2 := findShipmentByTn_updateCommit db tn c.status c.data c.now s hf
    by_cases hd : c.status = .DELIVERED
    · exact ih _ _ (c.data.timestamp.getD c.now) h2 (by simp [hd])
    · exact ih _ _ t h2 (by simp [hd, hs])

/-- Along any update trace from a shipment with `actualDelivery = null`,
`actualDelivery` becomes non-null exactly when some call delivered. -/
theorem actualDelivery_iff (tn : String) :
    ∀ (cs : List UpdateCall) (db : Db) (s : ShipmentRow),
      findShipmentByTn db tn = some s → s.actualDelivery = none →
      (actualDeliveryOf (applyUpdates db tn cs) tn ≠ none
        ↔ ∃ c ∈ cs, c.status = TrackingStatus.DELIVERED) := by
  intro cs
  induction cs with
  | nil =>
    intro db s hf hs
    simp [applyUpdates, actualDeliveryOf, hf, hs]
  | cons c cs ih =>
    intro db s hf hs
    have h2 := findShipmentByTn_updateCommit db tn c.status c.data c.now s hf
    have hstep : applyUpdates db tn (c :: cs)
        = applyUpdates (updateCommit db tn c.status c.data c.now) tn cs := rfl
    by_cases hd : c.status = .DELIVERED
    · constructor
      · intro _
        exact ⟨c, List.mem_cons_self c cs, hd⟩
      · intro _
        rw [hstep]
        exact actualDelivery_persists tn cs _ _ (c.data.timestamp.getD c.now) h2 (by simp [hd])
    · have h3 : ({ s with
          status := c.status
          actualDelivery :=
            if c.status = .DELIVERED then some (c.data.timestamp.getD c.now)
            else s.actualDelivery } : ShipmentRow).actualDelivery = none := by
        simp [hd, hs]
      rw [hstep, ih _ _ h2 h3]
      constructor
      · rintro ⟨x, hx, hxd⟩
        exact ⟨x, List.mem_cons_of_mem c hx, hxd⟩
      · rintro ⟨x, hx, hxd⟩
        rcases List.mem_cons.mp hx with rfl | hx'
        · exact absurd hxd hd
        · exact ⟨x, hx', hxd⟩

/-- `Math.ceil(total/limit)` characterised: `mathCeilDiv total L` is the
least page count covering `total` rows at `L` per page. -/
theorem ceilDiv_spec (total L : Nat) (hL : 0 < L) :
    total ≤ mathCeilDiv total L * L ∧ mathCeilDiv total L * L < total + L := by
  unfold mathCeilDiv
  constructor
  · rcases Nat.eq_zero_or_pos total with rfl | ht
    · simp
    · have hm : total + L - 1 = (total - 1) + L := by omega
      rw [hm, Nat.add_div_right _ hL]
      have hq : ((total - 1) / L + 1) * L = L * ((total - 1) / L) + L := by ring
      rw [hq]
      have hd := Nat.div_add_mod (total - 1) L
      have hmod := Nat.mod_lt (total - 1) hL
      omega
  · have h1 := Nat.div_mul_le_self (total + L - 1) L
    omega

/-! ### Claims -/

/-- C1 (code bug): on an existing, unconverted lead, `convertToShipment`
does create a shipment carrying the caller-supplied carrier /
carrierTrackingNumber / estimatedDelivery and the lead's client as owner —
but the shipment carries *no* tracking number at all (the create passes
only `{...shipmentData, userId}`, never calling the allocator, although
`trackingNumber` is a required unique column), so the claim's
"freshly allocated tracking number satisfying the uniqueness/format
contract" fails. -/
theorem C1_convert_shipment_has_no_trackingNumber :
    (convertToShipment leadDb 1 sdC1 99).map (fun r => r.2.carrier) = .ok (some "DHL")
  ∧ (convertToShipment leadDb 1 sdC1 99).map (fun r => r.2.carrierTrackingNumber)
      = .ok (some "CT-1")
  ∧ (convertToShipment leadDb 1 sdC1 99).map (fun r => r.2.estimatedDelivery)
      = .ok (some 1700000000)
  ∧ (convertToShipment leadDb 1 sdC1 99).map (fun r => r.2.userId) = .ok (some "u1")
  ∧ (convertToShipment leadDb 1 sdC1 99).map (fun r => r.2.trackingNumber) = .ok none
  ∧ (convertToShipment leadDb 1 sdC1 99).map (fun r => hasValidTrackingNumber r.2)
      = .ok false := by
  exact ⟨rfl, rfl, rfl, rfl, rfl, rfl⟩

/-- C6: the tracking-number allocator is a bounded loop: it fails with
allocation-exhausted when all 10 candidates collide, returns the first
collision-free candidate otherwise, and its result depends only on the
first 10 candidates it can generate. -/
theorem C6_allocator_bounded_retry (db : Db) (rands : Nat → Nat → Nat) :
    ((∀ i, i < 10 → existsTrackingNumber db (generateTrackingNumber (rands i)) = true) →
       generateUniqueTrackingNumber db rands = .error .allocationExhausted)
  ∧ (∀ i, i < 10 →
       existsTrackingNumber db (generateTrackingNumber (rands i)) = false →
       (∀ j, j < i → existsTrackingNumber db (generateTrackingNumber (rands j)) = true) →
       generateUniqueTrackingNumber db rands = .ok (generateTrackingNumber (rands i)))
  ∧ (∀ rands2 : Nat → Nat → Nat,
       (∀ i, i < 10 → generateTrackingNumber (rands i) = generateTrackingNumber (rands2 i)) →
       generateUniqueTrackingNumber db rands = generateUniqueTrackingNumber db rands2) := by
  refine ⟨?_, ?_, ?_⟩
  · intro h
    exact genAux_all_collide db rands MAX_ATTEMPTS 0 fun i _ h2 =>
      h i (by simp only [MAX_ATTEMPTS] at h2; omega)
  · intro i hi hfree hcoll
    exact genAux_first_free db rands MAX_ATTEMPTS 0 i (Nat.zero_le i)
      (by simp only [MAX_ATTEMPTS]; omega) hfree fun j _ hj => hcoll j hj
  · intro rands2 h
    exact genAux_congr db rands rands2 MAX_ATTEMPTS 0 fun i _ h2 =>
      h i (by simp only [MAX_ATTEMPTS] at h2; omega)

/-- Witness for C6: with a store already holding `"000000000000"` and
randomness that always draws index 0, all 10 attempts collide and the
allocator fails; on an empty store the very first candidate is returned. -/
theorem C6_allocator_bounded_retry_witness :
    generateUniqueTrackingNumber dbCollide rands0 = .error .allocationExhausted
  ∧ generateUniqueTrackingNumber emptyDb rands0
      = .ok (generateTrackingNumber (rands0 0)) := by
  constructor
  · exact (C6_allocator_bounded_retry dbCollide rands0).1 fun i _ => rfl
  · exact (C6_allocator_bounded_retry emptyDb rands0).2.1 0 (by omega) (by decide)
      fun j hj => absurd hj (Nat.not_lt_zero j)

/-- C7: every generated tracking number has length 12 over the 35-character
alphabet (no I, no O), and so does the tracking number of every shipment
`createShipment` creates. -/
theorem C7_tracking_number_format (rand : Nat → Nat) (db : Db) (data : CreateData)
    (rands : Nat → Nat → Nat) (now : Int) :
    ((generateTrackingNumber rand).length = 12
      ∧ ∀ c ∈ (generateTrackingNumber rand).toList, c ∈ trackingAlphabet)
  ∧ (∀ db1 s, createShipment db data rands now = .ok (db1, s) →
      ∃ tn, s.trackingNumber = some tn
        ∧ tn.length = 12 ∧ ∀ c ∈ tn.toList, c ∈ trackingAlphabet) := by
  refine ⟨⟨generateTrackingNumber_length rand, generateTrackingNumber_mem_alphabet rand⟩, ?_⟩
  intro db1 s h
  cases hg : generateUniqueTrackingNumber db rands with
  | error e => simp [createShipment, hg] at h
  | ok tn =>
    simp only [createShipment, hg, Except.ok.injEq, Prod.mk.injEq] at h
    obtain ⟨-, hs⟩ := h
    obtain ⟨i, hi⟩ := genAux_ok_candidate db rands MAX_ATTEMPTS 0 tn hg
    refine ⟨tn, ?_, ?_, ?_⟩
    · rw [← hs]
    · rw [hi]; exact generateTrackingNumber_length _
    · rw [hi]; exact generateTrackingNumber_mem_alphabet _

/-- Witness for C7: the shipment created on an empty store carries the
12-character candidate `"000000000000"`. -/
theorem C7_tracking_number_format_witness :
    ∃ tn, shipC7.trackingNumber = some tn
      ∧ tn.length = 12 ∧ ∀ c ∈ tn.toList, c ∈ trackingAlphabet :=
  (C7_tracking_number_format (rands0 0) emptyDb data0 rands0 0).2 dbC7 shipC7 (by rfl)

/-- C9 (code bug): `convertToShipment` is definitionally "check, then
transaction" — the already-converted check (`convertPhase1`) runs *before*
the transaction (`convertPhase2`), not inside it.  Hence the interleaving
check-A, check-B, transaction-A, transaction-B of two conversions of the
same unconverted lead lets both calls pass the check and both commit,
creating two shipment rows — which the claim says cannot happen. -/
theorem C9_converted_check_runs_before_transaction :
    (∀ db leadId sd now, convertToShipment db leadId sd now =
        match convertPhase1 db leadId with
        | .error e => .error e
        | .ok lead => .ok (convertPhase2 db leadId lead sd now))
  ∧ convertPhase1 raceDb 7 = .ok raceLead
  ∧ (convertPhase2 (convertPhase2 raceDb 7 raceLead sd0 1).1 7 raceLead sd0 2).1.shipments.length
      = raceDb.shipments.length + 2
  ∧ (findLeadById (convertPhase2 (convertPhase2 raceDb 7 raceLead sd0 1).1 7 raceLead sd0 2).1
        7).map (fun l => l.status) = some .converted := by
  exact ⟨fun db leadId sd now => rfl, rfl, rfl, rfl⟩

/-- C10: an empty-string `userId` is falsy in the `where` spread, so it is
the same as omitting the filter entirely. -/
theorem C10_empty_userId_is_no_filter (db : Db) (st : Option TrackingStatus)
    (page limit : Option Nat) :
    listShipments db (some "") st page limit = listShipments db none st page limit := by
  have h : whereMatch (some "") st = whereMatch none st := by
    funext s
    simp [whereMatch]
  simp [listShipments, h]

/-- C2 (code bug): the already-converted gate itself works — converting a
lead that is already `converted` fails with the InvalidTransition error
and commits nothing — but the claimed behaviour of two sequential calls is
false of the program as it runs: on an unconverted lead the first call
fails *inside* the transaction, because its `shipment.create` omits the
required no-default `trackingNumber` column (the same slip as C1), the
transaction rolls back, the lead is never marked `converted`, and the
second call fails with the same create error — not with
InvalidTransition.  No call ever succeeds, so "succeed at most once" holds
only vacuously. -/
theorem C2_second_call_fails_with_create_error :
    convertToShipmentRun convDb 1 sd0 1 = .error .alreadyConverted
  ∧ convertCommitRun convDb 1 sd0 1 = convDb
  ∧ convertToShipmentRun leadDb 1 sd0 1 = .error .missingTrackingNumber
  ∧ convertCommitRun leadDb 1 sd0 1 = leadDb
  ∧ (findLeadById (convertCommitRun leadDb 1 sd0 1) 1).map (fun l => l.status)
      = some .new
  ∧ convertToShipmentRun (convertCommitRun leadDb 1 sd0 1) 1 sd0 2
      = .error .missingTrackingNumber
  ∧ TrackErr.missingTrackingNumber ≠ TrackErr.alreadyConverted := by
  exact ⟨rfl, rfl, rfl, rfl, rfl, rfl, by decide⟩

/-- C3 counterexample: on a shipment whose only event is at timestamp 10, a
successful `updateShipmentStatus` to `IN_TRANSIT` with caller-supplied
timestamp 5 leaves the shipment's status at `IN_TRANSIT`, but the newest
event returned by `getShipment` (ordered by event timestamp, newest first)
is still the old `PENDING` event — so the claim's "the newest event has
status == S", quantified over *all* caller-supplied timestamps, is false. -/
theorem C3_counterexample_stale_newest_event :
    exceptIsOk (updateShipmentStatus dbC3 "TN1" .IN_TRANSIT updC3 50) = true
  ∧ (getShipment (updateCommit dbC3 "TN1" .IN_TRANSIT updC3 50) "TN1").map
      (fun r => r.1.status) = some .IN_TRANSIT
  ∧ (getShipment (updateCommit dbC3 "TN1" .IN_TRANSIT updC3 50) "TN1").map
      (fun r => r.2.head?.map fun e => e.status) = some (some .PENDING)
  ∧ TrackingStatus.PENDING ≠ TrackingStatus.IN_TRANSIT := by
  exact ⟨rfl, rfl, rfl, by decide⟩

/-- C3 amended: after every successful
`updateShipmentStatus(tn, S, ...)`, `getShipment(tn).status == S`; and the
newest event of `getShipment(tn).events` (ordered newest-first by event
timestamp) has status `S` *provided* the effective timestamp is strictly
later than every existing event of that shipment. -/
theorem C3_status_event_consistency (db : Db) (tn : String) (st : TrackingStatus)
    (d : UpdateData) (now : Int) (db1 : Db) (s1 : ShipmentRow)
    (h : updateShipmentStatus db tn st d now = .ok (db1, s1)) :
    (getShipment db1 tn).map (fun r => r.1.status) = some st
  ∧ ((∀ e ∈ db.events, e.shipmentId = s1.id → e.timestamp < d.timestamp.getD now) →
      (getShipment db1 tn).map (fun r => r.2.head?.map fun e => e.status)
        = some (some st)) := by
  cases hf : findShipmentByTn db tn with
  | none => simp [updateShipmentStatus, hf] at h
  | some s =>
    simp only [updateShipmentStatus, hf, Except.ok.injEq, Prod.mk.injEq] at h
    obtain ⟨hdb, hs⟩ := h
    have hfind : findShipmentByTn db1 tn
        = some { s with
                 status := st
                 actualDelivery :=
                   if st = .DELIVERED then some (d.timestamp.getD now)
                   else s.actualDelivery } := by
      rw [← hdb]
      exact find_shipments_update db.shipments tn st (d.timestamp.getD now) s hf
    constructor
    · simp [getShipment, hfind]
    · intro hts
      have hsid : s1.id = s.id := by rw [← hs]
      have hev : db1.events = db.events ++
          [{ shipmentId := s.id, status := st, description := d.description,
             location := d.location, timestamp := d.timestamp.getD now }] := by
        rw [← hdb]
      simp only [getShipment, hfind, Option.map_some']
      have hfilter :
          (db1.events.filter fun e => e.shipmentId == s.id)
            = (db.events.filter fun e => e.shipmentId == s.id) ++
              [{ shipmentId := s.id, status := st, description := d.description,
                 location := d.location, timestamp := d.timestamp.getD now }] := by
        rw [hev, List.filter_append]
        simp
      have hgt : ∀ x ∈ db.events.filter fun e => e.shipmentId == s.id,
          (fun e : EventRow => e.timestamp) x
            < (fun e : EventRow => e.timestamp)
                ({ shipmentId := s.id, status := st, description := d.description,
                   location := d.location, timestamp := d.timestamp.getD now } : EventRow) := by
        intro x hx
        have hx1 : x ∈ db.events := (List.mem_filter.mp hx).1
        have hx2 : (x.shipmentId == s.id) = true := (List.mem_filter.mp hx).2
        exact hts x hx1 (by rw [hsid]; exact eq_of_beq hx2)
      rw [hfilter, sortDescBy_append_gt _ _ _ hgt]
      rfl

/-- Witness for C3: the same update performed with timestamp 99 (later than
the existing event's 10) leaves both the status and the newest event at
`IN_TRANSIT`. -/
theorem C3_status_event_consistency_witness :
    (getShipment dbC3b "TN1").map (fun r => r.1.status) = some TrackingStatus.IN_TRANSIT
  ∧ (getShipment dbC3b "TN1").map (fun r => r.2.head?.map fun e => e.status)
      = some (some TrackingStatus.IN_TRANSIT) := by
  have h := C3_status_event_consistency dbC3 "TN1" .IN_TRANSIT
    ⟨"x", none, some 99⟩ 50 dbC3b shipC3b (by rfl)
  exact ⟨h.1, h.2 (by decide)⟩

/-- C4: `updateShipmentStatus` fails exactly with NotFound when the tracking
number is unknown; every failure leaves the state unchanged (neither
write); every success both updates the shipment's status and appends the
one tracking event, together. -/
theorem C4_update_notFound_and_atomicity (db : Db) (tn : String) (st : TrackingStatus)
    (d : UpdateData) (now : Int) :
    (findShipmentByTn db tn = none → updateShipmentStatus db tn st d now = .error .notFound)
  ∧ (∀ e, updateShipmentStatus db tn st d now = .error e →
      e = .notFound ∧ updateCommit db tn st d now = db)
  ∧ (∀ db1 s1, updateShipmentStatus db tn st d now = .ok (db1, s1) →
      db1.events = db.events ++
        [{ shipmentId := s1.id, status := st, description := d.description,
           location := d.location, timestamp := d.timestamp.getD now }]
      ∧ (getShipment db1 tn).map (fun r => r.1.status) = some st) := by
  refine ⟨?_, ?_, ?_⟩
  · intro hf
    simp [updateShipmentStatus, hf]
  · intro e he
    cases hf : findShipmentByTn db tn with
    | none =>
      simp only [updateShipmentStatus, hf, Except.error.injEq] at he
      refine ⟨he.symm, ?_⟩
      simp [updateCommit, updateShipmentStatus, hf]
    | some s => simp [updateShipmentStatus, hf] at he
  · intro db1 s1 h
    cases hf : findShipmentByTn db tn with
    | none => simp [updateShipmentStatus, hf] at h
    | some s =>
      simp only [updateShipmentStatus, hf, Except.ok.injEq, Prod.mk.injEq] at h
      obtain ⟨hdb, hs⟩ := h
      have hsid : s1.id = s.id := by rw [← hs]
      constructor
      · rw [← hdb, hsid]
      · have hfind : findShipmentByTn db1 tn
            = some { s with
                     status := st
                     actualDelivery :=
                       if st = .DELIVERED then some (d.timestamp.getD now)
                       else s.actualDelivery } := by
          rw [← hdb]
          exact find_shipments_update db.shipments tn st (d.timestamp.getD now) s hf
        simp [getShipment, hfind]

/-- Witness for C4: an unknown tracking number fails with NotFound leaving
the store unchanged; the successful update of `"TN1"` appends exactly its
event and sets the status. -/
theorem C4_update_notFound_and_atomicity_witness :
    updateShipmentStatus dbC3 "NOPE" .DELIVERED updC4 7 = .error .notFound
  ∧ updateCommit dbC3 "NOPE" .DELIVERED updC4 7 = dbC3
  ∧ (dbC4b.events = dbC3.events ++
       [{ shipmentId := shipC4b.id, status := .PICKED_UP, description := updC4.description,
          location := updC4.location, timestamp := updC4.timestamp.getD 7 }]
     ∧ (getShipment dbC4b "TN1").map (fun r => r.1.status) = some .PICKED_UP) := by
  have h := C4_update_notFound_and_atomicity dbC3 "NOPE" .DELIVERED updC4 7
  have h2 := C4_update_notFound_and_atomicity dbC3 "TN1" .PICKED_UP updC4 7
  refine ⟨h.1 (by rfl), (h.2.1 .notFound (h.1 (by rfl))).2, h2.2.2 dbC4b shipC4b (by rfl)⟩

/-- C5: a successful update to `DELIVERED` sets `actualDelivery` to the
effective timestamp (caller-supplied, else `now`); a successful update to
any other status leaves `actualDelivery` as it was; and along any trace of
updates from a shipment with `actualDelivery = null`, `actualDelivery` is
non-null exactly when some update in the trace was to `DELIVERED`. -/
theorem C5_actualDelivery_iff_delivered (db : Db) (tn : String) (d : UpdateData) (now : Int) :
    (findShipmentByTn db tn ≠ none →
       actualDeliveryOf (updateCommit db tn .DELIVERED d now) tn
         = some (d.timestamp.getD now))
  ∧ (∀ st : TrackingStatus, st ≠ .DELIVERED →
       actualDeliveryOf (updateCommit db tn st d now) tn = actualDeliveryOf db tn)
  ∧ (∀ (cs : List UpdateCall) (s : ShipmentRow),
       findShipmentByTn db tn = some s → s.actualDelivery = none →
       (actualDeliveryOf (applyUpdates db tn cs) tn ≠ none
          ↔ ∃ c ∈ cs, c.status = TrackingStatus.DELIVERED)) := by
  refine ⟨?_, ?_, ?_⟩
  · intro hne
    cases hf : findShipmentByTn db tn with
    | none => exact absurd hf hne
    | some s =>
      have h2 := findShipmentByTn_updateCommit db tn .DELIVERED d now s hf
      simp [actualDeliveryOf, h2]
  · intro st hst
    cases hf : findShipmentByTn db tn with
    | none =>
      have hc : updateCommit db tn st d now = db := by
        simp [updateCommit, updateShipmentStatus, hf]
      rw [hc]
    | some s =>
      have h2 := findShipmentByTn_updateCommit db tn st d now s hf
      simp [actualDeliveryOf, h2, hst, hf]
  · intro cs s hf hs
    exact actualDelivery_iff tn cs db s hf hs

/-- Witness for C5: delivering `"TN1"` (timestamp 77) sets
`actualDelivery = 77`; a `RETURNED` update leaves `actualDelivery`
unchanged; and the one-call `DELIVERED` trace makes it non-null. -/
theorem C5_actualDelivery_iff_delivered_witness :
    actualDeliveryOf (updateCommit dbC3 "TN1" .DELIVERED updC5 50) "TN1"
      = some (updC5.timestamp.getD 50)
  ∧ actualDeliveryOf (updateCommit dbC3 "TN1" .RETURNED updC5 50) "TN1"
      = actualDeliveryOf dbC3 "TN1"
  ∧ (actualDeliveryOf (applyUpdates dbC3 "TN1" [⟨.DELIVERED, updC5, 50⟩]) "TN1" ≠ none
       ↔ ∃ c ∈ [(⟨.DELIVERED, updC5, 50⟩ : UpdateCall)],
           c.status = TrackingStatus.DELIVERED) := by
  have h := C5_actualDelivery_iff_delivered dbC3 "TN1" updC5 50
  exact ⟨h.1 (by decide), h.2.1 .RETURNED (by decide), h.2.2 _ shipC3 rfl rfl⟩

/-- C8: `listShipments` defaults `page` to 1 and `limit` to 20; `total` is
the number of matching shipments; the returned page is the
`(page-1)*limit`-offset, `limit`-sized window of the matching shipments
(so at most `limit` rows); every returned shipment matches the filter; the
returned page is ordered newest-first by creation time; and `totalPages`
is the ceiling of `total/limit`. -/
theorem C8_listShipments_pagination (db : Db) (u : Option String)
    (st : Option TrackingStatus) (page limit : Option Nat) :
    (listShipments db u st none none).pagination.page = 1
  ∧ (listShipments db u st none none).pagination.limit = 20
  ∧ (listShipments db u st page limit).pagination.total
      = (db.shipments.filter (whereMatch u st)).length
  ∧ (listShipments db u st page limit).shipments.length
      = min (limit.getD 20)
          ((db.shipments.filter (whereMatch u st)).length - (page.getD 1 - 1) * limit.getD 20)
  ∧ (∀ s ∈ (listShipments db u st page limit).shipments, whereMatch u st s = true)
  ∧ (listShipments db u st page limit).shipments.Pairwise
      (fun a b => b.createdAt ≤ a.createdAt)
  ∧ (0 < limit.getD 20 →
       (listShipments db u st page limit).pagination.total
           ≤ (listShipments db u st page limit).pagination.totalPages * limit.getD 20
       ∧ (listShipments db u st page limit).pagination.totalPages * limit.getD 20
           < (listShipments db u st page limit).pagination.total + limit.getD 20) := by
  have hsub : (((sortDescBy (fun s : ShipmentRow => s.createdAt)
        (db.shipments.filter (whereMatch u st))).drop
          ((page.getD 1 - 1) * limit.getD 20)).take (limit.getD 20)).Sublist
      (sortDescBy (fun s : ShipmentRow => s.createdAt)
        (db.shipments.filter (whereMatch u st))) :=
    List.Sublist.trans (List.take_sublist _ _) (List.drop_sublist _ _)
  refine ⟨rfl, rfl, rfl, ?_, ?_, ?_, ?_⟩
  · simp [listShipments, List.length_take, List.length_drop, length_sortDescBy]
  · intro s hs
    have h1 : s ∈ sortDescBy (fun x : ShipmentRow => x.createdAt)
        (db.shipments.filter (whereMatch u st)) := hsub.subset hs
    have h2 : s ∈ db.shipments.filter (whereMatch u st) := (mem_sortDescBy _ _ _).mp h1
    exact (List.mem_filter.mp h2).2
  · exact (pairwise_sortDescBy (fun s : ShipmentRow => s.createdAt) _).sublist hsub
  · intro hL
    exact ceilDiv_spec (db.shipments.filter (whereMatch u st)).length (limit.getD 20) hL

/-- Witness for C8 (the spec's concrete scenario C): against 12 shipments
matching `IN_TRANSIT`, page 2 with limit 5 returns exactly 5 rows, with
`total = 12` and `totalPages = 3`. -/
theorem C8_listShipments_pagination_witness :
    (listShipments db12 none (some .IN_TRANSIT) (some 2) (some 5)).shipments.length = 5
  ∧ (listShipments db12 none (some .IN_TRANSIT) (some 2) (some 5)).pagination.total = 12
  ∧ (listShipments db12 none (some .IN_TRANSIT) (some 2) (some 5)).pagination.totalPages
      = 3 := by
  have h := C8_listShipments_pagination db12 none (some .IN_TRANSIT) (some 2) (some 5)
  have hlen := h.2.2.2.1
  have htot := h.2.2.1
  have hceil := h.2.2.2.2.2.2 (by decide)
  refine ⟨hlen.trans (by decide), htot.trans (by decide), ?_⟩
  have h12 : (db12.shipments.filter
      (whereMatch none (some TrackingStatus.IN_TRANSIT))).length = 12 := by decide
  rw [h12] at htot
  simp only [Option.getD_some] at hceil htot
  omega

end ParcelTrack
